import Mathlib

/-!
Shallow embedding of the rocket-landing simulation core (`ModeloCohete` in
`src/BDGUI.py`) and verification of the specification claims about it.

Python floats are modelled as real numbers.  The random draws made by the
Python code (`random.uniform`) and the wall clock (`time.time()`) are made
explicit: each call to the advance operation takes a `Ruido` record holding
the values the Python code would have drawn during that tick, and the
initial wind speed and direction are parameters of the constructor.
`float(x)` conversion of a user-supplied value is modelled by an
`Option ℝ` argument (`none` is a value whose conversion raises, e.g. the
string "bad"; `some v` is a value converting to `v`).  Alert messages that
Python builds by string interpolation of numeric values are modelled by
fixed strings; only the message identity per call site and the criticality
flag matter to the claims.
-/

open Classical

noncomputable section

namespace ModeloCohete

/-- Python float modulo for a positive modulus: `x % m = x - m * ⌊x / m⌋`. -/
def fmod (x m : ℝ) : ℝ := x - m * ↑⌊x / m⌋

/-- One alert entry `(message, is_critical)` as appended to `self.alertas`. -/
structure Alerta where
  msg : String
  critical : Bool
  deriving DecidableEq

/-- One telemetry row as appended to `self.telemetria`. -/
structure Telemetria where
  tiempo : ℝ
  altitud : ℝ
  velocidad : ℝ
  orientacion : ℝ
  temperatura : ℝ
  aceleracion : ℝ
  presion : ℝ

/-- One controller-history row as appended to `self.pid_history`. -/
structure PidHist where
  tiempo : ℝ
  error : ℝ
  salida_pid : ℝ
  potencia : ℝ

/-- The full mutable state of a `ModeloCohete` instance: every `self.*`
attribute set by `__init__` via `_initialize_parameters`,
`_initialize_environment`, `_initialize_systems`, `_initialize_pid` and
`_initialize_data`. -/
structure Modelo where
  altitud : ℝ
  velocidad : ℝ
  orientacion : ℝ
  aceleracion : ℝ
  temperatura : ℝ
  combustible : ℝ
  presion : ℝ
  humedad : ℝ
  viento : ℝ
  direccion_viento : ℝ
  estado_propulsores : Bool
  tren_desplegado : Bool
  mision_abortada : Bool
  potencia_propulsores : ℝ
  Kp : ℝ
  Ki : ℝ
  Kd : ℝ
  error_integral : ℝ
  error_anterior : ℝ
  altitud_objetivo : ℝ
  telemetria : List Telemetria
  tiempo_inicio : ℝ
  pid_history : List PidHist
  alertas : List Alerta

/-- The three alerts pushed by `_add_initial_alerts`. -/
def alertasIniciales : List Alerta :=
  [⟨"Sistema: Todos los sistemas nominales", false⟩,
   ⟨"Comunicación: Enlace estable con la base", false⟩,
   ⟨"Navegación: GPS con 8 satélites", false⟩]

/-- `ModeloCohete.__init__`: the freshly constructed state.  `w` and `d` are
the values drawn by `random.uniform(0, 10)` and `random.uniform(0, 360)` for
the initial wind, and `t0` is the `time.time()` stored in
`self.tiempo_inicio`. -/
def init (w d t0 : ℝ) : Modelo where
  altitud := 1000
  velocidad := -50
  orientacion := 0
  aceleracion := 0
  temperatura := 150
  combustible := 100
  presion := 1.0
  humedad := 30
  viento := w
  direccion_viento := d
  estado_propulsores := false
  tren_desplegado := false
  mision_abortada := false
  potencia_propulsores := 0
  Kp := 0.5
  Ki := 0.1
  Kd := 0.2
  error_integral := 0
  error_anterior := 0
  altitud_objetivo := 0
  telemetria := []
  tiempo_inicio := t0
  pid_history := []
  alertas := alertasIniciales

/-- The random draws consumed during one call to `actualizar_datos`, plus the
elapsed wall-clock time `time.time() - self.tiempo_inicio` observed by
`_record_telemetry`.  In the Python code these come from `random.uniform`
with the ranges recorded in `RuidoValido`. -/
structure Ruido where
  dv : ℝ
  dori : ℝ
  dtemp : ℝ
  dviento : ℝ
  ddir : ℝ
  t : ℝ

/-- The ranges the Python `random.uniform` calls guarantee for one tick's
draws (`uniform(a, b)` returns a value in `[a, b]`). -/
def RuidoValido (r : Ruido) : Prop :=
  -2 ≤ r.dv ∧ r.dv ≤ 2 ∧ -1 ≤ r.dori ∧ r.dori ≤ 1 ∧
  -0.5 ≤ r.dtemp ∧ r.dtemp ≤ 0.5 ∧ -1 ≤ r.dviento ∧ r.dviento ≤ 1 ∧
  -5 ≤ r.ddir ∧ r.ddir ≤ 5 ∧ 0 ≤ r.t

/-- The all-zero draw (a valid draw: every range contains 0). -/
def r0 : Ruido := ⟨0, 0, 0, 0, 0, 0⟩

/-- `ModeloCohete._update_pid_control`. -/
def update_pid_control (s : Modelo) : Modelo :=
  let error := s.altitud - s.altitud_objetivo
  let ei := s.error_integral + error
  let error_derivativo := error - s.error_anterior
  let salida_pid := s.Kp * error + s.Ki * ei + s.Kd * error_derivativo
  if s.estado_propulsores = true ∧ 0 < s.combustible then
    { s with error_integral := ei, error_anterior := error,
             potencia_propulsores := max 0 (min 100 (salida_pid * 10)),
             aceleracion := max 0 (min 100 (salida_pid * 10)) / 10 }
  else
    { s with error_integral := ei, error_anterior := error, aceleracion := 0 }

/-- `ModeloCohete._update_physics` with the tick's random draws `r`. -/
def update_physics (r : Ruido) (s : Modelo) : Modelo :=
  let v := s.velocidad + (s.aceleracion - 9.81) * 0.1 + r.dv
           + s.viento * 0.1 * Real.sin (s.direccion_viento * Real.pi / 180)
  let alt := max 0 (s.altitud + v * 0.1)
  let ori := fmod (s.orientacion + r.dori) 360
  if s.estado_propulsores = true ∧ 0 < s.combustible then
    { s with velocidad := v, altitud := alt, orientacion := ori,
             combustible := s.combustible - s.potencia_propulsores * 0.005,
             temperatura := s.temperatura + s.potencia_propulsores * 0.05 }
  else
    { s with velocidad := v, altitud := alt, orientacion := ori }

/-- `ModeloCohete._update_environment` with the tick's random draws `r`. -/
def update_environment (r : Ruido) (s : Modelo) : Modelo :=
  { s with temperatura := max 20 (min (s.temperatura + r.dtemp) 300),
           presion := 1.0 * Real.exp (-s.altitud / 8500),
           humedad := 30 + (1000 - min s.altitud 1000) / 10,
           viento := max 0 (min (s.viento + r.dviento) 20),
           direccion_viento := fmod (s.direccion_viento + r.ddir) 360 }

/-- `ModeloCohete._check_alerts`. -/
def check_alerts (s : Modelo) : Modelo :=
  let a1 : List Alerta :=
    if s.altitud < 10 ∧ s.velocidad < -15 then
      [⟨"ALERTA: Velocidad de descenso peligrosa!", true⟩] else []
  let a2 : List Alerta :=
    if s.combustible < 10 then [⟨"ALERTA: Combustible crítico!", true⟩] else []
  let a3 : List Alerta :=
    if 250 < s.temperatura then [⟨"ALERTA: Temperatura crítica!", true⟩] else []
  { s with alertas := s.alertas ++ a1 ++ a2 ++ a3 }

/-- `ModeloCohete._record_telemetry`; `t` is the elapsed time
`time.time() - self.tiempo_inicio`.  Python's slice `l[-k:]` (for a list
longer than `k`) keeps the last `k` elements, i.e. drops `l.length - k`. -/
def record_telemetry (t : ℝ) (s : Modelo) : Modelo :=
  let tel := s.telemetria ++
    [⟨t, s.altitud, s.velocidad, s.orientacion, s.temperatura, s.aceleracion, s.presion⟩]
  let ph := s.pid_history ++
    [⟨t, s.error_anterior,
      s.Kp * s.error_anterior + s.Ki * s.error_integral +
        s.Kd * (s.error_anterior - s.error_integral),
      s.potencia_propulsores⟩]
  { s with telemetria := if 500 < tel.length then tel.drop (tel.length - 250) else tel,
           pid_history := if 500 < ph.length then ph.drop (ph.length - 250) else ph,
           alertas := if 20 < s.alertas.length then s.alertas.drop (s.alertas.length - 10)
                      else s.alertas }

/-- The `'pid'` sub-dictionary of `_get_current_data`. -/
structure PidDatos where
  Kp : ℝ
  Ki : ℝ
  Kd : ℝ
  error : ℝ
  salida : ℝ

/-- The snapshot dictionary returned by `ModeloCohete._get_current_data`. -/
structure Datos where
  altitud : ℝ
  velocidad : ℝ
  orientacion : ℝ
  temperatura : ℝ
  combustible : ℝ
  presion : ℝ
  humedad : ℝ
  viento : ℝ
  direccion_viento : ℝ
  aceleracion : ℝ
  propulsores : Bool
  potencia : ℝ
  tren : Bool
  abortado : Bool
  pid : PidDatos
  alertas : List Alerta
  tiempo_inicio : ℝ

/-- `ModeloCohete._get_current_data`. -/
def get_current_data (s : Modelo) : Datos where
  altitud := s.altitud
  velocidad := s.velocidad
  orientacion := s.orientacion
  temperatura := s.temperatura
  combustible := s.combustible
  presion := s.presion
  humedad := s.humedad
  viento := s.viento
  direccion_viento := s.direccion_viento
  aceleracion := s.aceleracion
  propulsores := s.estado_propulsores
  potencia := s.potencia_propulsores
  tren := s.tren_desplegado
  abortado := s.mision_abortada
  pid := ⟨s.Kp, s.Ki, s.Kd, s.error_anterior,
          if s.mision_abortada = false then
            s.Kp * s.error_anterior + s.Ki * s.error_integral +
              s.Kd * (s.error_anterior - s.error_integral)
          else 0⟩
  alertas := s.alertas
  tiempo_inicio := s.tiempo_inicio

/-- The state after one `ModeloCohete.actualizar_datos` call (the mutation
performed by the method: the five update stages in order, skipped entirely
when the mission is aborted). -/
def advanceState (r : Ruido) (s : Modelo) : Modelo :=
  if s.mision_abortada = true then s
  else
    record_telemetry r.t
      (check_alerts (update_environment r (update_physics r (update_pid_control s))))

/-- `ModeloCohete.actualizar_datos`: mutate the state, then return the
snapshot of the mutated state. -/
def actualizar_datos (r : Ruido) (s : Modelo) : Modelo × Datos :=
  (advanceState r s, get_current_data (advanceState r s))

/-- `ModeloCohete.activar_propulsores`. -/
def activar_propulsores (s : Modelo) (estado : Bool) : Modelo :=
  { s with estado_propulsores := estado,
           alertas := s.alertas ++
             [⟨if estado = true then "Propulsores activados" else "Propulsores desactivados",
               false⟩] }

/-- `ModeloCohete.ajustar_potencia`.  The argument is `none` when
`float(potencia)` raises `ValueError`/`TypeError`, `some v` when it
converts to `v`; the value is stored without any clamping. -/
def ajustar_potencia (s : Modelo) (potencia : Option ℝ) : Modelo :=
  match potencia with
  | some v => { s with potencia_propulsores := v }
  | none => { s with alertas := s.alertas ++ [⟨"Error: Valor de potencia no válido", true⟩] }

/-- `ModeloCohete.desplegar_tren`: returns the mutated state together with
the boolean the method returns. -/
def desplegar_tren (s : Modelo) : Modelo × Bool :=
  if s.altitud < 100 ∧ s.tren_desplegado = false then
    ({ s with tren_desplegado := true,
              alertas := s.alertas ++ [⟨"Tren de aterrizaje desplegado", true⟩] }, true)
  else
    ({ s with alertas := s.alertas ++ [⟨"No se puede desplegar el tren a esta altitud", false⟩] },
     false)

/-- `ModeloCohete.abortar_mision`. -/
def abortar_mision (s : Modelo) : Modelo :=
  { s with mision_abortada := true, estado_propulsores := true,
           potencia_propulsores := 100,
           alertas := s.alertas ++ [⟨"¡MISIÓN ABORTADA!", true⟩] }

/-- The alert appended by `ajustar_pid` on a conversion failure. -/
def alertaPidInvalido : Alerta := ⟨"Error: Valores PID no válidos", true⟩

/-- The alert appended by `ajustar_pid` on success (Python interpolates the
three values into the message; the fixed prefix identifies the call site). -/
def alertaPidAjustado : Alerta := ⟨"PID ajustado", false⟩

/-- `ModeloCohete.ajustar_pid`.  Each argument is `none` when `float(...)`
of the corresponding Python value raises, `some v` when it converts to `v`.
The Python body assigns `self.Kp`, `self.Ki`, `self.Kd` one after the other
inside a single `try`, so a failure leaves the assignments that already
happened in place. -/
def ajustar_pid (s : Modelo) (kp ki kd : Option ℝ) : Modelo :=
  match kp with
  | none => { s with alertas := s.alertas ++ [alertaPidInvalido] }
  | some vp =>
    match ki with
    | none => { s with Kp := vp, alertas := s.alertas ++ [alertaPidInvalido] }
    | some vi =>
      match kd with
      | none => { s with Kp := vp, Ki := vi, alertas := s.alertas ++ [alertaPidInvalido] }
      | some vd =>
        { s with Kp := vp, Ki := vi, Kd := vd, alertas := s.alertas ++ [alertaPidAjustado] }

/-- `ModeloCohete.reiniciar_simulacion`: `self.__init__()` (with fresh
random wind draws `w`, `d` and a fresh `time.time()` value `t0`) followed by
appending the restart alert. -/
def reiniciar_simulacion (_ : Modelo) (w d t0 : ℝ) : Modelo :=
  { init w d t0 with alertas := (init w d t0).alertas ++ [⟨"Simulación reiniciada", true⟩] }

/-! ### Helper lemmas -/

/-- `activar_propulsores · true`, the command a driver issues to switch the
thrusters on (used to build concrete command sequences). -/
def propOn (s : Modelo) : Modelo := activar_propulsores s true

theorem propOn_iterate_length (n : ℕ) (s : Modelo) :
    (propOn^[n] s).alertas.length = s.alertas.length + n := by
  induction n generalizing s with
  | zero => simp
  | succ n ih =>
      rw [Function.iterate_succ_apply, ih]
      simp [propOn, activar_propulsores]
      omega

/-! ### Projection lemmas for the five update stages

Small equations describing which fields each stage changes and which it
leaves alone, so that proofs about `advanceState` can chain them instead of
unfolding the whole pipeline at once. -/

theorem advanceState_not_aborted (r : Ruido) (s : Modelo) (hab : s.mision_abortada = false) :
    advanceState r s =
      record_telemetry r.t
        (check_alerts (update_environment r (update_physics r (update_pid_control s)))) := by
  rw [advanceState, hab]
  simp

theorem pid_error_integral (s : Modelo) :
    (update_pid_control s).error_integral =
      s.error_integral + (s.altitud - s.altitud_objetivo) := by
  simp only [update_pid_control]
  split <;> rfl

theorem pid_error_anterior (s : Modelo) :
    (update_pid_control s).error_anterior = s.altitud - s.altitud_objetivo := by
  simp only [update_pid_control]
  split <;> rfl

theorem pid_potencia_pos (s : Modelo) (hc : s.estado_propulsores = true ∧ 0 < s.combustible) :
    (update_pid_control s).potencia_propulsores =
      max 0 (min 100 ((s.Kp * (s.altitud - s.altitud_objetivo) +
        s.Ki * (s.error_integral + (s.altitud - s.altitud_objetivo)) +
        s.Kd * ((s.altitud - s.altitud_objetivo) - s.error_anterior)) * 10)) := by
  rw [update_pid_control, if_pos hc]

theorem pid_aceleracion_pos (s : Modelo) (hc : s.estado_propulsores = true ∧ 0 < s.combustible) :
    (update_pid_control s).aceleracion =
      max 0 (min 100 ((s.Kp * (s.altitud - s.altitud_objetivo) +
        s.Ki * (s.error_integral + (s.altitud - s.altitud_objetivo)) +
        s.Kd * ((s.altitud - s.altitud_objetivo) - s.error_anterior)) * 10)) / 10 := by
  rw [update_pid_control, if_pos hc]

theorem pid_potencia_neg (s : Modelo) (hc : ¬(s.estado_propulsores = true ∧ 0 < s.combustible)) :
    (update_pid_control s).potencia_propulsores = s.potencia_propulsores := by
  rw [update_pid_control, if_neg hc]

theorem pid_aceleracion_neg (s : Modelo)
    (hc : ¬(s.estado_propulsores = true ∧ 0 < s.combustible)) :
    (update_pid_control s).aceleracion = 0 := by
  rw [update_pid_control, if_neg hc]

theorem pid_estado (s : Modelo) :
    (update_pid_control s).estado_propulsores = s.estado_propulsores := by
  simp only [update_pid_control]
  split <;> rfl

theorem pid_combustible (s : Modelo) :
    (update_pid_control s).combustible = s.combustible := by
  simp only [update_pid_control]
  split <;> rfl

theorem pid_altitud (s : Modelo) : (update_pid_control s).altitud = s.altitud := by
  simp only [update_pid_control]
  split <;> rfl

theorem pid_velocidad (s : Modelo) : (update_pid_control s).velocidad = s.velocidad := by
  simp only [update_pid_control]
  split <;> rfl

theorem pid_viento (s : Modelo) : (update_pid_control s).viento = s.viento := by
  simp only [update_pid_control]
  split <;> rfl

theorem pid_direccion (s : Modelo) :
    (update_pid_control s).direccion_viento = s.direccion_viento := by
  simp only [update_pid_control]
  split <;> rfl

theorem pid_abortada (s : Modelo) :
    (update_pid_control s).mision_abortada = s.mision_abortada := by
  simp only [update_pid_control]
  split <;> rfl

theorem pid_Kp (s : Modelo) : (update_pid_control s).Kp = s.Kp := by
  simp only [update_pid_control]
  split <;> rfl

theorem pid_Ki (s : Modelo) : (update_pid_control s).Ki = s.Ki := by
  simp only [update_pid_control]
  split <;> rfl

theorem pid_Kd (s : Modelo) : (update_pid_control s).Kd = s.Kd := by
  simp only [update_pid_control]
  split <;> rfl

theorem pid_objetivo (s : Modelo) :
    (update_pid_control s).altitud_objetivo = s.altitud_objetivo := by
  simp only [update_pid_control]
  split <;> rfl

theorem phys_velocidad (r : Ruido) (s : Modelo) :
    (update_physics r s).velocidad =
      s.velocidad + (s.aceleracion - 9.81) * 0.1 + r.dv +
        s.viento * 0.1 * Real.sin (s.direccion_viento * Real.pi / 180) := by
  simp only [update_physics]
  split <;> rfl

theorem phys_altitud (r : Ruido) (s : Modelo) :
    (update_physics r s).altitud =
      max 0 (s.altitud + (s.velocidad + (s.aceleracion - 9.81) * 0.1 + r.dv +
        s.viento * 0.1 * Real.sin (s.direccion_viento * Real.pi / 180)) * 0.1) := by
  simp only [update_physics]
  split <;> rfl

theorem phys_combustible_pos (r : Ruido) (s : Modelo)
    (hc : s.estado_propulsores = true ∧ 0 < s.combustible) :
    (update_physics r s).combustible =
      s.combustible - s.potencia_propulsores * 0.005 := by
  rw [update_physics, if_pos hc]

theorem phys_combustible_neg (r : Ruido) (s : Modelo)
    (hc : ¬(s.estado_propulsores = true ∧ 0 < s.combustible)) :
    (update_physics r s).combustible = s.combustible := by
  rw [update_physics, if_neg hc]

theorem phys_potencia (r : Ruido) (s : Modelo) :
    (update_physics r s).potencia_propulsores = s.potencia_propulsores := by
  simp only [update_physics]
  split <;> rfl

theorem phys_aceleracion (r : Ruido) (s : Modelo) :
    (update_physics r s).aceleracion = s.aceleracion := by
  simp only [update_physics]
  split <;> rfl

theorem phys_error_integral (r : Ruido) (s : Modelo) :
    (update_physics r s).error_integral = s.error_integral := by
  simp only [update_physics]
  split <;> rfl

theorem phys_error_anterior (r : Ruido) (s : Modelo) :
    (update_physics r s).error_anterior = s.error_anterior := by
  simp only [update_physics]
  split <;> rfl

theorem phys_estado (r : Ruido) (s : Modelo) :
    (update_physics r s).estado_propulsores = s.estado_propulsores := by
  simp only [update_physics]
  split <;> rfl

theorem phys_viento (r : Ruido) (s : Modelo) :
    (update_physics r s).viento = s.viento := by
  simp only [update_physics]
  split <;> rfl

theorem phys_direccion (r : Ruido) (s : Modelo) :
    (update_physics r s).direccion_viento = s.direccion_viento := by
  simp only [update_physics]
  split <;> rfl

theorem phys_abortada (r : Ruido) (s : Modelo) :
    (update_physics r s).mision_abortada = s.mision_abortada := by
  simp only [update_physics]
  split <;> rfl

theorem phys_Kp (r : Ruido) (s : Modelo) : (update_physics r s).Kp = s.Kp := by
  simp only [update_physics]
  split <;> rfl

theorem phys_Ki (r : Ruido) (s : Modelo) : (update_physics r s).Ki = s.Ki := by
  simp only [update_physics]
  split <;> rfl

theorem phys_Kd (r : Ruido) (s : Modelo) : (update_physics r s).Kd = s.Kd := by
  simp only [update_physics]
  split <;> rfl

theorem phys_objetivo (r : Ruido) (s : Modelo) :
    (update_physics r s).altitud_objetivo = s.altitud_objetivo := by
  simp only [update_physics]
  split <;> rfl

theorem env_viento (r : Ruido) (s : Modelo) :
    (update_environment r s).viento = max 0 (min (s.viento + r.dviento) 20) := rfl

theorem env_direccion (r : Ruido) (s : Modelo) :
    (update_environment r s).direccion_viento = fmod (s.direccion_viento + r.ddir) 360 := rfl

theorem env_presion (r : Ruido) (s : Modelo) :
    (update_environment r s).presion = 1.0 * Real.exp (-s.altitud / 8500) := rfl

theorem env_humedad (r : Ruido) (s : Modelo) :
    (update_environment r s).humedad = 30 + (1000 - min s.altitud 1000) / 10 := rfl

theorem env_altitud (r : Ruido) (s : Modelo) :
    (update_environment r s).altitud = s.altitud := rfl

theorem env_velocidad (r : Ruido) (s : Modelo) :
    (update_environment r s).velocidad = s.velocidad := rfl

theorem env_combustible (r : Ruido) (s : Modelo) :
    (update_environment r s).combustible = s.combustible := rfl

theorem env_potencia (r : Ruido) (s : Modelo) :
    (update_environment r s).potencia_propulsores = s.potencia_propulsores := rfl

theorem env_aceleracion (r : Ruido) (s : Modelo) :
    (update_environment r s).aceleracion = s.aceleracion := rfl

theorem env_error_integral (r : Ruido) (s : Modelo) :
    (update_environment r s).error_integral = s.error_integral := rfl

theorem env_error_anterior (r : Ruido) (s : Modelo) :
    (update_environment r s).error_anterior = s.error_anterior := rfl

theorem env_estado (r : Ruido) (s : Modelo) :
    (update_environment r s).estado_propulsores = s.estado_propulsores := rfl

theorem env_abortada (r : Ruido) (s : Modelo) :
    (update_environment r s).mision_abortada = s.mision_abortada := rfl

theorem env_Kp (r : Ruido) (s : Modelo) : (update_environment r s).Kp = s.Kp := rfl

theorem env_Ki (r : Ruido) (s : Modelo) : (update_environment r s).Ki = s.Ki := rfl

theorem env_Kd (r : Ruido) (s : Modelo) : (update_environment r s).Kd = s.Kd := rfl

theorem env_objetivo (r : Ruido) (s : Modelo) :
    (update_environment r s).altitud_objetivo = s.altitud_objetivo := rfl

theorem check_altitud (s : Modelo) : (check_alerts s).altitud = s.altitud := rfl

theorem check_velocidad (s : Modelo) : (check_alerts s).velocidad = s.velocidad := rfl

theorem check_combustible (s : Modelo) : (check_alerts s).combustible = s.combustible := rfl

theorem check_potencia (s : Modelo) :
    (check_alerts s).potencia_propulsores = s.potencia_propulsores := rfl

theorem check_aceleracion (s : Modelo) : (check_alerts s).aceleracion = s.aceleracion := rfl

theorem check_error_integral (s : Modelo) :
    (check_alerts s).error_integral = s.error_integral := rfl

theorem check_error_anterior (s : Modelo) :
    (check_alerts s).error_anterior = s.error_anterior := rfl

theorem check_estado (s : Modelo) :
    (check_alerts s).estado_propulsores = s.estado_propulsores := rfl

theorem check_abortada (s : Modelo) :
    (check_alerts s).mision_abortada = s.mision_abortada := rfl

theorem check_viento (s : Modelo) : (check_alerts s).viento = s.viento := rfl

theorem check_direccion (s : Modelo) :
    (check_alerts s).direccion_viento = s.direccion_viento := rfl

theorem check_presion (s : Modelo) : (check_alerts s).presion = s.presion := rfl

theorem check_humedad (s : Modelo) : (check_alerts s).humedad = s.humedad := rfl

theorem check_Kp (s : Modelo) : (check_alerts s).Kp = s.Kp := rfl

theorem check_Ki (s : Modelo) : (check_alerts s).Ki = s.Ki := rfl

theorem check_Kd (s : Modelo) : (check_alerts s).Kd = s.Kd := rfl

theorem check_objetivo (s : Modelo) :
    (check_alerts s).altitud_objetivo = s.altitud_objetivo := rfl

theorem record_altitud (t : ℝ) (s : Modelo) : (record_telemetry t s).altitud = s.altitud := rfl

theorem record_velocidad (t : ℝ) (s : Modelo) :
    (record_telemetry t s).velocidad = s.velocidad := rfl

theorem record_combustible (t : ℝ) (s : Modelo) :
    (record_telemetry t s).combustible = s.combustible := rfl

theorem record_potencia (t : ℝ) (s : Modelo) :
    (record_telemetry t s).potencia_propulsores = s.potencia_propulsores := rfl

theorem record_aceleracion (t : ℝ) (s : Modelo) :
    (record_telemetry t s).aceleracion = s.aceleracion := rfl

theorem record_error_integral (t : ℝ) (s : Modelo) :
    (record_telemetry t s).error_integral = s.error_integral := rfl

theorem record_error_anterior (t : ℝ) (s : Modelo) :
    (record_telemetry t s).error_anterior = s.error_anterior := rfl

theorem record_estado (t : ℝ) (s : Modelo) :
    (record_telemetry t s).estado_propulsores = s.estado_propulsores := rfl

theorem record_abortada (t : ℝ) (s : Modelo) :
    (record_telemetry t s).mision_abortada = s.mision_abortada := rfl

theorem record_viento (t : ℝ) (s : Modelo) : (record_telemetry t s).viento = s.viento := rfl

theorem record_direccion (t : ℝ) (s : Modelo) :
    (record_telemetry t s).direccion_viento = s.direccion_viento := rfl

theorem record_presion (t : ℝ) (s : Modelo) : (record_telemetry t s).presion = s.presion := rfl

theorem record_humedad (t : ℝ) (s : Modelo) : (record_telemetry t s).humedad = s.humedad := rfl

theorem record_Kp (t : ℝ) (s : Modelo) : (record_telemetry t s).Kp = s.Kp := rfl

theorem record_Ki (t : ℝ) (s : Modelo) : (record_telemetry t s).Ki = s.Ki := rfl

theorem record_Kd (t : ℝ) (s : Modelo) : (record_telemetry t s).Kd = s.Kd := rfl

theorem record_objetivo (t : ℝ) (s : Modelo) :
    (record_telemetry t s).altitud_objetivo = s.altitud_objetivo := rfl

theorem pid_pid_history (s : Modelo) : (update_pid_control s).pid_history = s.pid_history := by
  simp only [update_pid_control]
  split <;> rfl

theorem phys_pid_history (r : Ruido) (s : Modelo) :
    (update_physics r s).pid_history = s.pid_history := by
  simp only [update_physics]
  split <;> rfl

theorem env_pid_history (r : Ruido) (s : Modelo) :
    (update_environment r s).pid_history = s.pid_history := rfl

theorem check_pid_history (s : Modelo) : (check_alerts s).pid_history = s.pid_history := rfl

theorem record_pid_history (t : ℝ) (s : Modelo) :
    (record_telemetry t s).pid_history =
      (if 500 < (s.pid_history ++
            ([⟨t, s.error_anterior,
               s.Kp * s.error_anterior + s.Ki * s.error_integral +
                 s.Kd * (s.error_anterior - s.error_integral),
               s.potencia_propulsores⟩] : List PidHist)).length
       then (s.pid_history ++
            ([⟨t, s.error_anterior,
               s.Kp * s.error_anterior + s.Ki * s.error_integral +
                 s.Kd * (s.error_anterior - s.error_integral),
               s.potencia_propulsores⟩] : List PidHist)).drop
              ((s.pid_history ++
                ([⟨t, s.error_anterior,
                   s.Kp * s.error_anterior + s.Ki * s.error_integral +
                     s.Kd * (s.error_anterior - s.error_integral),
                   s.potencia_propulsores⟩] : List PidHist)).length - 250)
       else s.pid_history ++
            ([⟨t, s.error_anterior,
               s.Kp * s.error_anterior + s.Ki * s.error_integral +
                 s.Kd * (s.error_anterior - s.error_integral),
               s.potencia_propulsores⟩] : List PidHist)) := rfl

theorem ajustar_pid_ok_estado (s : Modelo) (a b c : ℝ) :
    (ajustar_pid s (some a) (some b) (some c)).estado_propulsores = s.estado_propulsores := rfl

theorem ajustar_pid_ok_abortada (s : Modelo) (a b c : ℝ) :
    (ajustar_pid s (some a) (some b) (some c)).mision_abortada = s.mision_abortada := rfl

theorem ajustar_pid_ok_combustible (s : Modelo) (a b c : ℝ) :
    (ajustar_pid s (some a) (some b) (some c)).combustible = s.combustible := rfl

theorem ajustar_pid_ok_altitud (s : Modelo) (a b c : ℝ) :
    (ajustar_pid s (some a) (some b) (some c)).altitud = s.altitud := rfl

theorem ajustar_pid_ok_velocidad (s : Modelo) (a b c : ℝ) :
    (ajustar_pid s (some a) (some b) (some c)).velocidad = s.velocidad := rfl

theorem ajustar_pid_ok_viento (s : Modelo) (a b c : ℝ) :
    (ajustar_pid s (some a) (some b) (some c)).viento = s.viento := rfl

theorem ajustar_pid_ok_objetivo (s : Modelo) (a b c : ℝ) :
    (ajustar_pid s (some a) (some b) (some c)).altitud_objetivo = s.altitud_objetivo := rfl

theorem ajustar_pid_ok_Kp (s : Modelo) (a b c : ℝ) :
    (ajustar_pid s (some a) (some b) (some c)).Kp = a := rfl

theorem ajustar_pid_ok_Ki (s : Modelo) (a b c : ℝ) :
    (ajustar_pid s (some a) (some b) (some c)).Ki = b := rfl

theorem ajustar_pid_ok_Kd (s : Modelo) (a b c : ℝ) :
    (ajustar_pid s (some a) (some b) (some c)).Kd = c := rfl

/-! ### Claim theorems -/

/-- C4: once `mision_abortada` is true, `actualizar_datos` changes no state
at all, whatever the tick's random draws, and returns the snapshot of the
unchanged state — so repeated calls return identical snapshots and
altitude, velocity and temperature stay at their values from the moment of
abort. -/
theorem advance_aborted_frozen (r : Ruido) (s : Modelo)
    (h : s.mision_abortada = true) :
    advanceState r s = s ∧ actualizar_datos r s = (s, get_current_data s) := by
  constructor
  · simp [advanceState, h]
  · simp [actualizar_datos, advanceState, h]

theorem advance_aborted_frozen_witness :
    (abortar_mision (init 0 0 0)).mision_abortada = true ∧
      (advanceState r0 (abortar_mision (init 0 0 0)) = abortar_mision (init 0 0 0) ∧
       actualizar_datos r0 (abortar_mision (init 0 0 0)) =
         (abortar_mision (init 0 0 0), get_current_data (abortar_mision (init 0 0 0)))) :=
  ⟨rfl, advance_aborted_frozen r0 (abortar_mision (init 0 0 0)) rfl⟩

/-- C9: `desplegar_tren` returns success iff at call time `altitud < 100`
and the gear is not already deployed; on success it sets
`tren_desplegado := true` and appends an alert, otherwise it returns
failure, leaves `tren_desplegado` unchanged and appends a non-critical
alert. -/
theorem desplegar_tren_spec (s : Modelo) :
    ((desplegar_tren s).2 = true ↔ s.altitud < 100 ∧ s.tren_desplegado = false) ∧
    (s.altitud < 100 ∧ s.tren_desplegado = false →
      desplegar_tren s =
        ({ s with tren_desplegado := true,
                  alertas := s.alertas ++ [⟨"Tren de aterrizaje desplegado", true⟩] }, true)) ∧
    (¬(s.altitud < 100 ∧ s.tren_desplegado = false) →
      desplegar_tren s =
        ({ s with alertas :=
             s.alertas ++ [⟨"No se puede desplegar el tren a esta altitud", false⟩] }, false)) := by
  by_cases h : s.altitud < 100 ∧ s.tren_desplegado = false
  · refine ⟨by simp [desplegar_tren, h], fun _ => by simp [desplegar_tren, h], fun hn => absurd h hn⟩
  · refine ⟨by simp [desplegar_tren, h], fun hp => absurd hp h, fun _ => by simp [desplegar_tren, h]⟩

theorem desplegar_tren_spec_witness :
    ¬((init 0 0 0).altitud < 100 ∧ (init 0 0 0).tren_desplegado = false) ∧
      desplegar_tren (init 0 0 0) =
        ({ init 0 0 0 with alertas :=
             (init 0 0 0).alertas ++ [⟨"No se puede desplegar el tren a esta altitud", false⟩] },
         false) :=
  ⟨by norm_num [init], (desplegar_tren_spec (init 0 0 0)).2.2 (by norm_num [init])⟩

/-- C2 counterexample: `ajustar_pid` with a convertible first value and a
failing second value mutates `Kp` (from 0.5 to 0.3) even though a
conversion failed — contradicting "on any conversion failure, none of the
three gains is mutated". Exactly one critical alert is appended. -/
theorem ajustar_pid_not_atomic :
    (ajustar_pid (init 0 0 0) (some 0.3) none (some 0.2)).Kp = 0.3 ∧
    (init 0 0 0).Kp = 0.5 ∧ (0.3 : ℝ) ≠ 0.5 ∧
    (ajustar_pid (init 0 0 0) (some 0.3) none (some 0.2)).alertas =
      (init 0 0 0).alertas ++ [⟨"Error: Valores PID no válidos", true⟩] :=
  ⟨rfl, rfl, by norm_num, rfl⟩

/-- C2 amended: `ajustar_pid` assigns the three gains sequentially inside
one `try`: if the first conversion fails nothing is mutated; if the second
fails `Kp` is already replaced; if the third fails `Kp` and `Ki` are
already replaced; in every failure case exactly one critical alert is
appended, and on full success all three gains are replaced and one
non-critical alert is appended. -/
theorem ajustar_pid_sequential (s : Modelo) (a b c : ℝ) (ob oc : Option ℝ) :
    ((ajustar_pid s none ob oc).Kp = s.Kp ∧ (ajustar_pid s none ob oc).Ki = s.Ki ∧
      (ajustar_pid s none ob oc).Kd = s.Kd ∧
      (ajustar_pid s none ob oc).alertas = s.alertas ++ [alertaPidInvalido]) ∧
    ((ajustar_pid s (some a) none oc).Kp = a ∧ (ajustar_pid s (some a) none oc).Ki = s.Ki ∧
      (ajustar_pid s (some a) none oc).Kd = s.Kd ∧
      (ajustar_pid s (some a) none oc).alertas = s.alertas ++ [alertaPidInvalido]) ∧
    ((ajustar_pid s (some a) (some b) none).Kp = a ∧
      (ajustar_pid s (some a) (some b) none).Ki = b ∧
      (ajustar_pid s (some a) (some b) none).Kd = s.Kd ∧
      (ajustar_pid s (some a) (some b) none).alertas = s.alertas ++ [alertaPidInvalido]) ∧
    ((ajustar_pid s (some a) (some b) (some c)).Kp = a ∧
      (ajustar_pid s (some a) (some b) (some c)).Ki = b ∧
      (ajustar_pid s (some a) (some b) (some c)).Kd = c ∧
      (ajustar_pid s (some a) (some b) (some c)).alertas = s.alertas ++ [alertaPidAjustado]) ∧
    alertaPidInvalido.critical = true ∧ alertaPidAjustado.critical = false :=
  ⟨⟨rfl, rfl, rfl, rfl⟩, ⟨rfl, rfl, rfl, rfl⟩, ⟨rfl, rfl, rfl, rfl⟩,
   ⟨rfl, rfl, rfl, rfl⟩, rfl, rfl⟩

/-- C3 counterexample: `ajustar_potencia` stores any successfully converted
numeric value without clamping, so after `setThrottle(150)` the throttle is
150, outside `[0, 100]` — contradicting "after every command, including
setThrottle with any accepted numeric value, the throttle lies in
[0, 100]". -/
theorem ajustar_potencia_no_clamp :
    (ajustar_potencia (init 0 0 0) (some 150)).potencia_propulsores = 150 ∧
      ¬((ajustar_potencia (init 0 0 0) (some 150)).potencia_propulsores ≤ 100) := by
  constructor
  · rfl
  · show ¬((150 : ℝ) ≤ 100)
    norm_num

/-- C10 counterexample: `reiniciar_simulacion` is not observationally
equivalent to constructing a fresh model: its alert log has the three fresh
alerts plus a trailing critical restart alert (4 entries), while a freshly
constructed model has 3. -/
theorem reiniciar_alertas_differ :
    (reiniciar_simulacion (init 0 0 0) 0 0 0).alertas.length = 4 ∧
    (init 0 0 0).alertas.length = 3 ∧
    (reiniciar_simulacion (init 0 0 0) 0 0 0).alertas ≠ (init 0 0 0).alertas := by
  refine ⟨rfl, rfl, fun h => ?_⟩
  have := congrArg List.length h
  simp [reiniciar_simulacion, init, alertasIniciales] at this

/-- C10 amended: `reiniciar_simulacion` equals a freshly constructed model
(with the new random wind draws and the new elapsed-time origin) in every
state component except the alert log, which is the fresh log with one
additional trailing critical restart alert. -/
theorem reiniciar_eq_fresh_plus_alert (s : Modelo) (w d t0 : ℝ) :
    (reiniciar_simulacion s w d t0).altitud = (init w d t0).altitud ∧
    (reiniciar_simulacion s w d t0).velocidad = (init w d t0).velocidad ∧
    (reiniciar_simulacion s w d t0).orientacion = (init w d t0).orientacion ∧
    (reiniciar_simulacion s w d t0).aceleracion = (init w d t0).aceleracion ∧
    (reiniciar_simulacion s w d t0).temperatura = (init w d t0).temperatura ∧
    (reiniciar_simulacion s w d t0).combustible = (init w d t0).combustible ∧
    (reiniciar_simulacion s w d t0).presion = (init w d t0).presion ∧
    (reiniciar_simulacion s w d t0).humedad = (init w d t0).humedad ∧
    (reiniciar_simulacion s w d t0).viento = (init w d t0).viento ∧
    (reiniciar_simulacion s w d t0).direccion_viento = (init w d t0).direccion_viento ∧
    (reiniciar_simulacion s w d t0).estado_propulsores = (init w d t0).estado_propulsores ∧
    (reiniciar_simulacion s w d t0).tren_desplegado = (init w d t0).tren_desplegado ∧
    (reiniciar_simulacion s w d t0).mision_abortada = (init w d t0).mision_abortada ∧
    (reiniciar_simulacion s w d t0).potencia_propulsores = (init w d t0).potencia_propulsores ∧
    (reiniciar_simulacion s w d t0).Kp = (init w d t0).Kp ∧
    (reiniciar_simulacion s w d t0).Ki = (init w d t0).Ki ∧
    (reiniciar_simulacion s w d t0).Kd = (init w d t0).Kd ∧
    (reiniciar_simulacion s w d t0).error_integral = (init w d t0).error_integral ∧
    (reiniciar_simulacion s w d t0).error_anterior = (init w d t0).error_anterior ∧
    (reiniciar_simulacion s w d t0).altitud_objetivo = (init w d t0).altitud_objetivo ∧
    (reiniciar_simulacion s w d t0).telemetria = (init w d t0).telemetria ∧
    (reiniciar_simulacion s w d t0).tiempo_inicio = (init w d t0).tiempo_inicio ∧
    (reiniciar_simulacion s w d t0).pid_history = (init w d t0).pid_history ∧
    (reiniciar_simulacion s w d t0).alertas =
      (init w d t0).alertas ++ [⟨"Simulación reiniciada", true⟩] :=
  ⟨rfl, rfl, rfl, rfl, rfl, rfl, rfl, rfl, rfl, rfl, rfl, rfl,
   rfl, rfl, rfl, rfl, rfl, rfl, rfl, rfl, rfl, rfl, rfl, rfl⟩

/-- C8 counterexample: command operations append alerts without any
truncation; 18 `activar_propulsores(true)` calls from a fresh model leave
the alert log with 21 entries, exceeding the claimed cap of 20. -/
theorem comandos_superan_20_alertas :
    (propOn^[18] (init 0 0 0)).alertas.length = 21 ∧
      ¬((propOn^[18] (init 0 0 0)).alertas.length ≤ 20) := by
  have h := propOn_iterate_length 18 (init 0 0 0)
  have h3 : (init 0 0 0).alertas.length = 3 := rfl
  rw [h3] at h
  exact ⟨h, by rw [h]; norm_num⟩

/-- C5: on every non-aborted `actualizar_datos` the controller step
computes `error = altitud - 0`, accumulates `error_integral += error` with
no clamp, sets `error_anterior = error`, and
`output = Kp*error + Ki*error_integral + Kd*(error - previous_error)`; if
the thrusters are engaged and fuel > 0 the throttle becomes
`clamp(output*10, 0, 100)` and the acceleration `throttle/10`, otherwise
the acceleration is 0 and the throttle keeps its previous value. -/
theorem advance_pid_step (r : Ruido) (s : Modelo)
    (hab : s.mision_abortada = false) (hobj : s.altitud_objetivo = 0) :
    (advanceState r s).error_integral = s.error_integral + (s.altitud - 0) ∧
    (advanceState r s).error_anterior = s.altitud - 0 ∧
    (s.estado_propulsores = true ∧ 0 < s.combustible →
      (advanceState r s).potencia_propulsores =
        max 0 (min 100 ((s.Kp * (s.altitud - 0) +
          s.Ki * (s.error_integral + (s.altitud - 0)) +
          s.Kd * ((s.altitud - 0) - s.error_anterior)) * 10)) ∧
      (advanceState r s).aceleracion = (advanceState r s).potencia_propulsores / 10) ∧
    (¬(s.estado_propulsores = true ∧ 0 < s.combustible) →
      (advanceState r s).aceleracion = 0 ∧
      (advanceState r s).potencia_propulsores = s.potencia_propulsores) := by
  have h1 := advanceState_not_aborted r s hab
  refine ⟨?_, ?_, fun hc => ⟨?_, ?_⟩, fun hc => ⟨?_, ?_⟩⟩
  · rw [h1, record_error_integral, check_error_integral, env_error_integral,
        phys_error_integral, pid_error_integral, hobj]
  · rw [h1, record_error_anterior, check_error_anterior, env_error_anterior,
        phys_error_anterior, pid_error_anterior, hobj]
  · rw [h1, record_potencia, check_potencia, env_potencia, phys_potencia,
        pid_potencia_pos s hc, hobj]
  · rw [h1, record_aceleracion, check_aceleracion, env_aceleracion, phys_aceleracion,
        pid_aceleracion_pos s hc, record_potencia, check_potencia, env_potencia,
        phys_potencia, pid_potencia_pos s hc]
  · rw [h1, record_aceleracion, check_aceleracion, env_aceleracion, phys_aceleracion,
        pid_aceleracion_neg s hc]
  · rw [h1, record_potencia, check_potencia, env_potencia, phys_potencia,
        pid_potencia_neg s hc]

theorem advance_pid_step_witness :
    (init 0 0 0).mision_abortada = false ∧ (init 0 0 0).altitud_objetivo = 0 ∧
      ((advanceState r0 (init 0 0 0)).error_integral =
          (init 0 0 0).error_integral + ((init 0 0 0).altitud - 0) ∧
       (advanceState r0 (init 0 0 0)).error_anterior = (init 0 0 0).altitud - 0 ∧
       ((init 0 0 0).estado_propulsores = true ∧ 0 < (init 0 0 0).combustible →
         (advanceState r0 (init 0 0 0)).potencia_propulsores =
           max 0 (min 100 (((init 0 0 0).Kp * ((init 0 0 0).altitud - 0) +
             (init 0 0 0).Ki * ((init 0 0 0).error_integral + ((init 0 0 0).altitud - 0)) +
             (init 0 0 0).Kd * (((init 0 0 0).altitud - 0) - (init 0 0 0).error_anterior)) * 10)) ∧
         (advanceState r0 (init 0 0 0)).aceleracion =
           (advanceState r0 (init 0 0 0)).potencia_propulsores / 10) ∧
       (¬((init 0 0 0).estado_propulsores = true ∧ 0 < (init 0 0 0).combustible) →
         (advanceState r0 (init 0 0 0)).aceleracion = 0 ∧
         (advanceState r0 (init 0 0 0)).potencia_propulsores =
           (init 0 0 0).potencia_propulsores)) :=
  ⟨rfl, rfl, advance_pid_step r0 (init 0 0 0) rfl rfl⟩

/-- C1 amended: during `actualizar_datos` the fuel never increases and
decreases by at most 0.5 (the burn is `throttle * 0.005` with the throttle
freshly clamped to `[0, 100]` whenever the burn happens), so from a fuel
level ≥ 0 it stays above −0.5 — but there is no floor at 0: from a
reachable state with `0 < combustible < throttle * 0.005` one tick drives
the fuel strictly negative. -/
theorem advance_combustible_bounds (r : Ruido) (s : Modelo) (h : 0 ≤ s.combustible) :
    (advanceState r s).combustible ≤ s.combustible ∧
      s.combustible - 1/2 ≤ (advanceState r s).combustible ∧
      -(1/2 : ℝ) < (advanceState r s).combustible := by
  by_cases hab : s.mision_abortada = true
  · have : advanceState r s = s := by simp [advanceState, hab]
    rw [this]
    exact ⟨le_refl _, by linarith, by linarith⟩
  · have hab' : s.mision_abortada = false := by
      cases hb : s.mision_abortada
      · rfl
      · exact absurd hb hab
    by_cases hc : s.estado_propulsores = true ∧ 0 < s.combustible
    · have key : ∃ p : ℝ, 0 ≤ p ∧ p ≤ 100 ∧
          (advanceState r s).combustible = s.combustible - p * 0.005 := by
        refine ⟨max 0 (min 100 ((s.Kp * (s.altitud - s.altitud_objetivo) +
          s.Ki * (s.error_integral + (s.altitud - s.altitud_objetivo)) +
          s.Kd * ((s.altitud - s.altitud_objetivo) - s.error_anterior)) * 10)),
          le_max_left _ _, max_le (by norm_num) (min_le_left _ _), ?_⟩
        simp [advanceState, hab', update_pid_control, update_physics, update_environment,
              check_alerts, record_telemetry, hc]
      obtain ⟨p, hp0, hp1, he⟩ := key
      rw [he]
      refine ⟨by nlinarith, by nlinarith, by nlinarith [hc.2]⟩
    · have : (advanceState r s).combustible = s.combustible := by
        simp [advanceState, hab', update_pid_control, update_physics, update_environment,
              check_alerts, record_telemetry, hc]
      rw [this]
      exact ⟨le_refl _, by linarith, by linarith⟩

theorem advance_combustible_bounds_witness :
    (0 : ℝ) ≤ (init 0 0 0).combustible ∧
      ((advanceState r0 (init 0 0 0)).combustible ≤ (init 0 0 0).combustible ∧
       (init 0 0 0).combustible - 1/2 ≤ (advanceState r0 (init 0 0 0)).combustible ∧
       -(1/2 : ℝ) < (advanceState r0 (init 0 0 0)).combustible) :=
  ⟨by norm_num [init], advance_combustible_bounds r0 (init 0 0 0) (by norm_num [init])⟩

/-- C3 amended: after any tick in which the PID path runs (mission not
aborted, thrusters engaged, fuel > 0) the throttle lies in `[0, 100]`
because `_update_pid_control` clamps it; but `ajustar_potencia` stores any
accepted numeric value without clamping, so after `setThrottle` the
throttle can lie outside `[0, 100]` (and keeps such a value through ticks
in which the PID path does not run). -/
theorem advance_potencia_bounds (r : Ruido) (s : Modelo)
    (hab : s.mision_abortada = false)
    (hc : s.estado_propulsores = true ∧ 0 < s.combustible) :
    0 ≤ (advanceState r s).potencia_propulsores ∧
      (advanceState r s).potencia_propulsores ≤ 100 := by
  have he : (advanceState r s).potencia_propulsores =
      max 0 (min 100 ((s.Kp * (s.altitud - s.altitud_objetivo) +
        s.Ki * (s.error_integral + (s.altitud - s.altitud_objetivo)) +
        s.Kd * ((s.altitud - s.altitud_objetivo) - s.error_anterior)) * 10)) := by
    simp [advanceState, hab, update_pid_control, update_physics, update_environment,
          check_alerts, record_telemetry, hc]
  rw [he]
  exact ⟨le_max_left _ _, max_le (by norm_num) (min_le_left _ _)⟩

theorem advance_potencia_bounds_witness :
    (activar_propulsores (init 0 0 0) true).mision_abortada = false ∧
      ((activar_propulsores (init 0 0 0) true).estado_propulsores = true ∧
        0 < (activar_propulsores (init 0 0 0) true).combustible) ∧
      (0 ≤ (advanceState r0 (activar_propulsores (init 0 0 0) true)).potencia_propulsores ∧
        (advanceState r0 (activar_propulsores (init 0 0 0) true)).potencia_propulsores ≤ 100) :=
  ⟨rfl, ⟨rfl, by norm_num [activar_propulsores, init]⟩,
   advance_potencia_bounds r0 (activar_propulsores (init 0 0 0) true) rfl
     ⟨rfl, by norm_num [activar_propulsores, init]⟩⟩

/-- C7 amended: after every `actualizar_datos` in which the mission is not
aborted, the pressure equals `1.0 * exp(-altitud / 8500)` and the humidity
equals `30 + (1000 - min(altitud, 1000)) / 10` at the tick's final
altitude; an aborted tick is a no-op and can return the constructor's
out-of-sync initial values. -/
theorem advance_env_sync (r : Ruido) (s : Modelo) (hab : s.mision_abortada = false) :
    (advanceState r s).presion = 1.0 * Real.exp (-(advanceState r s).altitud / 8500) ∧
    (advanceState r s).humedad = 30 + (1000 - min (advanceState r s).altitud 1000) / 10 := by
  by_cases hc : s.estado_propulsores = true ∧ 0 < s.combustible <;>
    constructor <;>
      simp [advanceState, hab, update_pid_control, update_physics, update_environment,
            check_alerts, record_telemetry, hc]

theorem advance_env_sync_witness :
    (init 0 0 0).mision_abortada = false ∧
      ((advanceState r0 (init 0 0 0)).presion =
         1.0 * Real.exp (-(advanceState r0 (init 0 0 0)).altitud / 8500) ∧
       (advanceState r0 (init 0 0 0)).humedad =
         30 + (1000 - min (advanceState r0 (init 0 0 0)).altitud 1000) / 10) :=
  ⟨rfl, advance_env_sync r0 (init 0 0 0) rfl⟩

/-- C7 counterexample: aborting the mission before the first tick freezes
the constructor state, whose pressure is 1.0 while the altitude is 1000;
after the (no-op) `actualizar_datos` the pressure does not equal
`1.0 * exp(-altitud / 8500)` since `exp(-1000/8500) < 1`. -/
theorem presion_desync_abortado :
    (advanceState r0 (abortar_mision (init 0 0 0))).presion = 1.0 ∧
    (advanceState r0 (abortar_mision (init 0 0 0))).altitud = 1000 ∧
    (advanceState r0 (abortar_mision (init 0 0 0))).presion ≠
      1.0 * Real.exp (-(advanceState r0 (abortar_mision (init 0 0 0))).altitud / 8500) := by
  have hfr : advanceState r0 (abortar_mision (init 0 0 0)) = abortar_mision (init 0 0 0) := by
    simp [advanceState, abortar_mision]
  rw [hfr]
  refine ⟨rfl, rfl, fun h => ?_⟩
  have h1 : (abortar_mision (init 0 0 0)).presion = (1 : ℝ) := by norm_num [abortar_mision, init]
  have h2 : (abortar_mision (init 0 0 0)).altitud = (1000 : ℝ) := rfl
  rw [h1, h2] at h
  have hlt : Real.exp (-(1000 : ℝ) / 8500) < 1 := Real.exp_lt_one_iff.mpr (by norm_num)
  rw [show (1.0 : ℝ) * Real.exp (-(1000 : ℝ) / 8500) = Real.exp (-(1000 : ℝ) / 8500) from
        by norm_num] at h
  exact absurd h.symm (ne_of_lt hlt)

/-- C8 amended: after every non-aborted `actualizar_datos` the alert log
holds at most 20 entries; writing `A` for the log as it stands after the
tick's appends (the alerts produced by `_check_alerts` on top of the
incoming log), whenever `A` exceeds 20 entries the final log is exactly
`A.drop (A.length - 10)` — the most recent 10 entries of `A`, a suffix of
`A` of length 10, in order — and whenever `A` has at most 20 entries the
final log is `A` unchanged.  Command operations, however, append without
truncation, so between ticks the log can exceed 20. -/
theorem advance_alertas_bounded (r : Ruido) (s : Modelo)
    (hab : s.mision_abortada = false) :
    (advanceState r s).alertas.length ≤ 20 ∧
    (20 < (check_alerts (update_environment r (update_physics r
          (update_pid_control s)))).alertas.length →
      (advanceState r s).alertas =
        (check_alerts (update_environment r (update_physics r
            (update_pid_control s)))).alertas.drop
          ((check_alerts (update_environment r (update_physics r
              (update_pid_control s)))).alertas.length - 10) ∧
      (advanceState r s).alertas.length = 10 ∧
      (advanceState r s).alertas.IsSuffix
        (check_alerts (update_environment r (update_physics r
            (update_pid_control s)))).alertas) ∧
    (¬20 < (check_alerts (update_environment r (update_physics r
          (update_pid_control s)))).alertas.length →
      (advanceState r s).alertas =
        (check_alerts (update_environment r (update_physics r
            (update_pid_control s)))).alertas) := by
  have h : (advanceState r s).alertas =
      (if 20 < (check_alerts (update_environment r (update_physics r
                  (update_pid_control s)))).alertas.length
       then (check_alerts (update_environment r (update_physics r
              (update_pid_control s)))).alertas.drop
              ((check_alerts (update_environment r (update_physics r
                 (update_pid_control s)))).alertas.length - 10)
       else (check_alerts (update_environment r (update_physics r
              (update_pid_control s)))).alertas) := by
    simp [advanceState, hab, record_telemetry]
  by_cases h20 : 20 < (check_alerts (update_environment r (update_physics r
      (update_pid_control s)))).alertas.length
  · rw [h, if_pos h20]
    refine ⟨?_, fun _ => ⟨rfl, ?_, ?_⟩, fun hn => absurd h20 hn⟩
    · rw [List.length_drop]
      omega
    · rw [List.length_drop]
      omega
    · exact List.drop_suffix _ _
  · rw [h, if_neg h20]
    exact ⟨by omega, fun hp => absurd hp h20, fun _ => rfl⟩

theorem advance_alertas_bounded_witness :
    (init 0 0 0).mision_abortada = false ∧
      ((advanceState r0 (init 0 0 0)).alertas.length ≤ 20 ∧
       (20 < (check_alerts (update_environment r0 (update_physics r0
             (update_pid_control (init 0 0 0))))).alertas.length →
         (advanceState r0 (init 0 0 0)).alertas =
           (check_alerts (update_environment r0 (update_physics r0
               (update_pid_control (init 0 0 0))))).alertas.drop
             ((check_alerts (update_environment r0 (update_physics r0
                 (update_pid_control (init 0 0 0))))).alertas.length - 10) ∧
         (advanceState r0 (init 0 0 0)).alertas.length = 10 ∧
         (advanceState r0 (init 0 0 0)).alertas.IsSuffix
           (check_alerts (update_environment r0 (update_physics r0
               (update_pid_control (init 0 0 0))))).alertas) ∧
       (¬20 < (check_alerts (update_environment r0 (update_physics r0
             (update_pid_control (init 0 0 0))))).alertas.length →
         (advanceState r0 (init 0 0 0)).alertas =
           (check_alerts (update_environment r0 (update_physics r0
               (update_pid_control (init 0 0 0))))).alertas)) :=
  ⟨rfl, advance_alertas_bounded r0 (init 0 0 0) rfl⟩

/-- C6: the `salida_pid` value recorded in the controller history and the
`'salida'` reported in the snapshot's PID bundle use
`Kd * (error_anterior - error_integral)` instead of the derivative term
`Kd * (error - previous_error)` used by `_update_pid_control`.  Concretely:
on the first tick from a fresh model (zero noise, zero wind) the controller
computes `0.5*1000 + 0.1*1000 + 0.2*(1000 - 0) = 800`, but both the history
entry and the snapshot report `600`. -/
theorem pid_history_salida_discrepancia :
    (advanceState r0 (init 0 0 0)).pid_history = [⟨0, 1000, 600, 0⟩] ∧
    (get_current_data (advanceState r0 (init 0 0 0))).pid.salida = 600 ∧
    (init 0 0 0).Kp * 1000 + (init 0 0 0).Ki * (0 + 1000) +
        (init 0 0 0).Kd * (1000 - 0) = 800 ∧
    (600 : ℝ) ≠ 800 := by
  have hab : (init 0 0 0).mision_abortada = false := rfl
  have h1 := advanceState_not_aborted r0 (init 0 0 0) hab
  have hcond : ¬((init 0 0 0).estado_propulsores = true ∧ 0 < (init 0 0 0).combustible) := by
    rintro ⟨hp, -⟩
    exact Bool.noConfusion hp
  have hS_ph : (check_alerts (update_environment r0 (update_physics r0
      (update_pid_control (init 0 0 0))))).pid_history = [] := by
    rw [check_pid_history, env_pid_history, phys_pid_history, pid_pid_history]
    rfl
  have hS_ea : (check_alerts (update_environment r0 (update_physics r0
      (update_pid_control (init 0 0 0))))).error_anterior = 1000 := by
    rw [check_error_anterior, env_error_anterior, phys_error_anterior, pid_error_anterior]
    norm_num [init]
  have hS_ei : (check_alerts (update_environment r0 (update_physics r0
      (update_pid_control (init 0 0 0))))).error_integral = 1000 := by
    rw [check_error_integral, env_error_integral, phys_error_integral, pid_error_integral]
    norm_num [init]
  have hS_Kp : (check_alerts (update_environment r0 (update_physics r0
      (update_pid_control (init 0 0 0))))).Kp = 0.5 := by
    rw [check_Kp, env_Kp, phys_Kp, pid_Kp]
    rfl
  have hS_Ki : (check_alerts (update_environment r0 (update_physics r0
      (update_pid_control (init 0 0 0))))).Ki = 0.1 := by
    rw [check_Ki, env_Ki, phys_Ki, pid_Ki]
    rfl
  have hS_Kd : (check_alerts (update_environment r0 (update_physics r0
      (update_pid_control (init 0 0 0))))).Kd = 0.2 := by
    rw [check_Kd, env_Kd, phys_Kd, pid_Kd]
    rfl
  have hS_pot : (check_alerts (update_environment r0 (update_physics r0
      (update_pid_control (init 0 0 0))))).potencia_propulsores = 0 := by
    rw [check_potencia, env_potencia, phys_potencia, pid_potencia_neg _ hcond]
    rfl
  have hrt : r0.t = 0 := rfl
  refine ⟨?_, ?_, by norm_num [init], by norm_num⟩
  · rw [h1, record_pid_history, hS_ph, hS_ea, hS_ei, hS_Kp, hS_Ki, hS_Kd, hS_pot, hrt]
    norm_num
  · have habA : (advanceState r0 (init 0 0 0)).mision_abortada = false := by
      rw [h1, record_abortada, check_abortada, env_abortada, phys_abortada, pid_abortada]
      rfl
    have hKpA : (advanceState r0 (init 0 0 0)).Kp = 0.5 := by
      rw [h1, record_Kp]
      exact hS_Kp
    have hKiA : (advanceState r0 (init 0 0 0)).Ki = 0.1 := by
      rw [h1, record_Ki]
      exact hS_Ki
    have hKdA : (advanceState r0 (init 0 0 0)).Kd = 0.2 := by
      rw [h1, record_Kd]
      exact hS_Kd
    have heaA : (advanceState r0 (init 0 0 0)).error_anterior = 1000 := by
      rw [h1, record_error_anterior]
      exact hS_ea
    have heiA : (advanceState r0 (init 0 0 0)).error_integral = 1000 := by
      rw [h1, record_error_integral]
      exact hS_ei
    have hform : (get_current_data (advanceState r0 (init 0 0 0))).pid.salida =
        (if (advanceState r0 (init 0 0 0)).mision_abortada = false then
           (advanceState r0 (init 0 0 0)).Kp * (advanceState r0 (init 0 0 0)).error_anterior +
             (advanceState r0 (init 0 0 0)).Ki * (advanceState r0 (init 0 0 0)).error_integral +
             (advanceState r0 (init 0 0 0)).Kd *
               ((advanceState r0 (init 0 0 0)).error_anterior -
                 (advanceState r0 (init 0 0 0)).error_integral)
         else 0) := rfl
    rw [hform, if_pos habA, hKpA, hKiA, hKdA, heaA, heiA]
    norm_num

/-! ### Reachable trace on which the fuel drops below 0 (for C1)

Command schedule: from a fresh model (zero initial wind), set the gains to
`Kp = 1, Ki = 0, Kd = 0`, engage the thrusters, and run 199 zero-noise
ticks; the altitude stays above 10 m so the clamped throttle is 100 each
tick and the fuel falls from 100 to exactly 0.5.  Then set
`Kp = 200/1427` so the next tick's throttle is 60 (burn 0.3, fuel 0.2),
set `Kp = 1` back (throttle 100, burn 0.5), and the fuel ends at −0.3. -/

/-- The state after the two initial commands of the schedule. -/
def cexStart : Modelo :=
  activar_propulsores (ajustar_pid (init 0 0 0) (some 1) (some 0) (some 0)) true

/-- The state after `n` zero-noise ticks from `cexStart`. -/
def cexTrace (n : ℕ) : Modelo := (advanceState r0)^[n] cexStart

/-- Closed form of the altitude after `n` ticks of the schedule. -/
def altN (n : ℕ) : ℝ := 1000 - 5 * (n : ℝ) + 19 / 20000 * (n : ℝ) * ((n : ℝ) + 1)

/-- Closed form of the velocity after `n` ticks of the schedule. -/
def velN (n : ℕ) : ℝ := -50 + 19 / 1000 * (n : ℝ)

theorem altN_ge (n : ℕ) (hn : n ≤ 199) : 10 ≤ altN n := by
  rcases Nat.lt_or_ge n 199 with h | h
  · have h198 : (n : ℝ) ≤ 198 := by
      have hh : n ≤ 198 := by omega
      exact_mod_cast hh
    have hq : 0 ≤ (19 / 20000 : ℝ) * (n : ℝ) * ((n : ℝ) + 1) := by positivity
    simp only [altN]
    linarith
  · have h199 : n = 199 := by omega
    subst h199
    simp only [altN]
    push_cast
    norm_num

/-- One zero-noise tick from a non-aborted state with thrusters on, fuel
left, proportional-only gains, target 0 and no wind: the throttle becomes
`clamp(Kp * altitud * 10, 0, 100)` and the physics follows the clean
closed-form update. -/
theorem advance_burn_step (s : Modelo)
    (hprop : s.estado_propulsores = true) (hab : s.mision_abortada = false)
    (hki : s.Ki = 0) (hkd : s.Kd = 0) (hobj : s.altitud_objetivo = 0)
    (hfuel : 0 < s.combustible) (hv : s.viento = 0) :
    (advanceState r0 s).estado_propulsores = true ∧
    (advanceState r0 s).mision_abortada = false ∧
    (advanceState r0 s).Kp = s.Kp ∧
    (advanceState r0 s).Ki = 0 ∧
    (advanceState r0 s).Kd = 0 ∧
    (advanceState r0 s).altitud_objetivo = 0 ∧
    (advanceState r0 s).viento = 0 ∧
    (advanceState r0 s).potencia_propulsores = max 0 (min 100 (s.Kp * s.altitud * 10)) ∧
    (advanceState r0 s).combustible =
      s.combustible - max 0 (min 100 (s.Kp * s.altitud * 10)) * 0.005 ∧
    (advanceState r0 s).velocidad =
      s.velocidad + (max 0 (min 100 (s.Kp * s.altitud * 10)) / 10 - 9.81) * 0.1 ∧
    (advanceState r0 s).altitud =
      max 0 (s.altitud +
        (s.velocidad + (max 0 (min 100 (s.Kp * s.altitud * 10)) / 10 - 9.81) * 0.1) * 0.1) := by
  have hc : s.estado_propulsores = true ∧ 0 < s.combustible := ⟨hprop, hfuel⟩
  have h1 := advanceState_not_aborted r0 s hab
  have hsal : (s.Kp * (s.altitud - s.altitud_objetivo) +
      s.Ki * (s.error_integral + (s.altitud - s.altitud_objetivo)) +
      s.Kd * ((s.altitud - s.altitud_objetivo) - s.error_anterior)) * 10
      = s.Kp * s.altitud * 10 := by
    rw [hki, hkd, hobj]
    ring
  have hX : (update_pid_control s).estado_propulsores = true ∧
      0 < (update_pid_control s).combustible := by
    rw [pid_estado, pid_combustible]
    exact hc
  have hPot : (update_pid_control s).potencia_propulsores =
      max 0 (min 100 (s.Kp * s.altitud * 10)) := by
    rw [pid_potencia_pos s hc, hsal]
  have hAcc : (update_pid_control s).aceleracion =
      max 0 (min 100 (s.Kp * s.altitud * 10)) / 10 := by
    rw [pid_aceleracion_pos s hc, hsal]
  have hVel : (update_physics r0 (update_pid_control s)).velocidad =
      s.velocidad + (max 0 (min 100 (s.Kp * s.altitud * 10)) / 10 - 9.81) * 0.1 := by
    rw [phys_velocidad, pid_velocidad, hAcc, pid_viento, hv,
        show r0.dv = (0 : ℝ) from rfl]
    ring
  have hAlt : (update_physics r0 (update_pid_control s)).altitud =
      max 0 (s.altitud +
        (s.velocidad + (max 0 (min 100 (s.Kp * s.altitud * 10)) / 10 - 9.81) * 0.1) * 0.1) := by
    rw [phys_altitud, pid_altitud, pid_velocidad, hAcc, pid_viento, hv,
        show r0.dv = (0 : ℝ) from rfl, pid_direccion]
    have e : s.velocidad + (max 0 (min 100 (s.Kp * s.altitud * 10)) / 10 - 9.81) * 0.1 + 0 +
        0 * 0.1 * Real.sin (s.direccion_viento * Real.pi / 180) =
        s.velocidad + (max 0 (min 100 (s.Kp * s.altitud * 10)) / 10 - 9.81) * 0.1 := by
      ring
    rw [e]
  have hFuel : (update_physics r0 (update_pid_control s)).combustible =
      s.combustible - max 0 (min 100 (s.Kp * s.altitud * 10)) * 0.005 := by
    rw [phys_combustible_pos r0 _ hX, pid_combustible, hPot]
  have hwind : (advanceState r0 s).viento = 0 := by
    rw [h1, record_viento, check_viento, env_viento, phys_viento, pid_viento, hv,
        show r0.dviento = (0 : ℝ) from rfl]
    norm_num
  refine ⟨?_, ?_, ?_, ?_, ?_, ?_, hwind, ?_, ?_, ?_, ?_⟩
  · rw [h1, record_estado, check_estado, env_estado, phys_estado, pid_estado]
    exact hprop
  · rw [h1, record_abortada, check_abortada, env_abortada, phys_abortada, pid_abortada]
    exact hab
  · rw [h1, record_Kp, check_Kp, env_Kp, phys_Kp, pid_Kp]
  · rw [h1, record_Ki, check_Ki, env_Ki, phys_Ki, pid_Ki]
    exact hki
  · rw [h1, record_Kd, check_Kd, env_Kd, phys_Kd, pid_Kd]
    exact hkd
  · rw [h1, record_objetivo, check_objetivo, env_objetivo, phys_objetivo, pid_objetivo]
    exact hobj
  · rw [h1, record_potencia, check_potencia, env_potencia, phys_potencia]
    exact hPot
  · rw [h1, record_combustible, check_combustible, env_combustible]
    exact hFuel
  · rw [h1, record_velocidad, check_velocidad, env_velocidad]
    exact hVel
  · rw [h1, record_altitud, check_altitud, env_altitud]
    exact hAlt

/-- Invariant of the first 199 ticks of the schedule: thrusters on, mission
not aborted, gains `(1, 0, 0)`, no wind, and closed-form fuel, altitude and
velocity. -/
theorem cexTrace_inv (n : ℕ) : n ≤ 199 →
    (cexTrace n).estado_propulsores = true ∧
    (cexTrace n).mision_abortada = false ∧
    (cexTrace n).Kp = 1 ∧
    (cexTrace n).Ki = 0 ∧
    (cexTrace n).Kd = 0 ∧
    (cexTrace n).altitud_objetivo = 0 ∧
    (cexTrace n).viento = 0 ∧
    (cexTrace n).combustible = 100 - (n : ℝ) / 2 ∧
    (cexTrace n).altitud = altN n ∧
    (cexTrace n).velocidad = velN n := by
  induction n with
  | zero =>
      intro _
      refine ⟨rfl, rfl, rfl, rfl, rfl, rfl, rfl, ?_, ?_, ?_⟩ <;>
        norm_num [cexTrace, cexStart, activar_propulsores, ajustar_pid, init, altN, velN]
  | succ n ih =>
      intro hn
      have hn' : n ≤ 199 := by omega
      obtain ⟨h1, h2, h3, h4, h5, h6, h7, h8, h9, h10⟩ := ih hn'
      have hfuel : 0 < (cexTrace n).combustible := by
        rw [h8]
        have : (n : ℝ) ≤ 199 := by exact_mod_cast hn'
        linarith
      have hs : cexTrace (n + 1) = advanceState r0 (cexTrace n) := by
        simp only [cexTrace]
        rw [Function.iterate_succ_apply']
      obtain ⟨b1, b2, b3, b4, b5, b6, b7, b8, b9, b10, b11⟩ :=
        advance_burn_step (cexTrace n) h1 h2 h4 h5 h6 hfuel h7
      have hP : max 0 (min 100 ((cexTrace n).Kp * (cexTrace n).altitud * 10)) = 100 := by
        rw [h3, h9]
        have hge : (100 : ℝ) ≤ 1 * altN n * 10 := by
          have := altN_ge n hn'
          nlinarith
        rw [min_eq_left hge]
        exact max_eq_right (by norm_num)
      rw [hs]
      refine ⟨b1, b2, by rw [b3, h3], b4, b5, b6, b7, ?_, ?_, ?_⟩
      · rw [b9, hP, h8]
        push_cast
        ring_nf
      · rw [b11, hP, h9, h10]
        have hin : altN n + (velN n + (100 / 10 - 9.81) * 0.1) * 0.1 = altN (n + 1) := by
          simp only [altN, velN]
          push_cast
          ring_nf
        rw [hin]
        have := altN_ge (n + 1) hn
        exact max_eq_right (by linarith)
      · rw [b10, hP, h10]
        simp only [velN]
        push_cast
        ring_nf

/-- C1 counterexample: after the reachable command/tick schedule described
above (199 full-throttle ticks, one 60%-throttle tick, one full-throttle
tick, all draws zero and hence within the `random.uniform` ranges), the
fuel equals −0.3, strictly below the claimed floor of 0. -/
theorem combustible_negativo_alcanzable :
    RuidoValido r0 ∧
    (advanceState r0 (ajustar_pid
        (advanceState r0 (ajustar_pid (cexTrace 199) (some (200 / 1427)) (some 0) (some 0)))
        (some 1) (some 0) (some 0))).combustible = -(3 / 10) ∧
    (advanceState r0 (ajustar_pid
        (advanceState r0 (ajustar_pid (cexTrace 199) (some (200 / 1427)) (some 0) (some 0)))
        (some 1) (some 0) (some 0))).combustible < 0 := by
  obtain ⟨h1, h2, h3, h4, h5, h6, h7, h8, h9, h10⟩ := cexTrace_inv 199 (le_refl _)
  have halt199 : altN 199 = 4281 / 100 := by
    simp only [altN]
    push_cast
    norm_num
  have hvel199 : velN 199 = -(46219 / 1000) := by
    simp only [velN]
    push_cast
    norm_num
  have hcomb199 : (cexTrace 199).combustible = 1 / 2 := by
    rw [h8]
    push_cast
    norm_num
  obtain ⟨c1, c2, c3, c4, c5, c6, c7, c8, c9, c10, c11⟩ :=
    advance_burn_step (ajustar_pid (cexTrace 199) (some (200 / 1427)) (some 0) (some 0))
      (by rw [ajustar_pid_ok_estado]; exact h1)
      (by rw [ajustar_pid_ok_abortada]; exact h2)
      (ajustar_pid_ok_Ki _ _ _ _)
      (ajustar_pid_ok_Kd _ _ _ _)
      (by rw [ajustar_pid_ok_objetivo]; exact h6)
      (by rw [ajustar_pid_ok_combustible, hcomb199]; norm_num)
      (by rw [ajustar_pid_ok_viento]; exact h7)
  have hP4 : max 0 (min 100
      ((ajustar_pid (cexTrace 199) (some (200 / 1427)) (some 0) (some 0)).Kp *
        (ajustar_pid (cexTrace 199) (some (200 / 1427)) (some 0) (some 0)).altitud * 10)) =
      60 := by
    rw [ajustar_pid_ok_Kp, ajustar_pid_ok_altitud, h9, halt199]
    rw [show (200 / 1427 : ℝ) * (4281 / 100) * 10 = 60 by norm_num]
    rw [min_eq_right (by norm_num : (60 : ℝ) ≤ 100)]
    exact max_eq_right (by norm_num)
  have hcomb5 : (advanceState r0
      (ajustar_pid (cexTrace 199) (some (200 / 1427)) (some 0) (some 0))).combustible =
      1 / 5 := by
    rw [c9, hP4, ajustar_pid_ok_combustible, hcomb199]
    norm_num
  have hvel5 : (advanceState r0
      (ajustar_pid (cexTrace 199) (some (200 / 1427)) (some 0) (some 0))).velocidad =
      -(233 / 5) := by
    rw [c10, hP4, ajustar_pid_ok_velocidad, h10, hvel199]
    norm_num
  have halt5 : (advanceState r0
      (ajustar_pid (cexTrace 199) (some (200 / 1427)) (some 0) (some 0))).altitud =
      3815 / 100 := by
    rw [c11, hP4, ajustar_pid_ok_altitud, ajustar_pid_ok_velocidad, h9, h10, halt199, hvel199]
    rw [show (4281 / 100 : ℝ) + (-(46219 / 1000) + (60 / 10 - 9.81) * 0.1) * 0.1 =
          3815 / 100 by norm_num]
    exact max_eq_right (by norm_num)
  obtain ⟨d1, d2, d3, d4, d5, d6, d7, d8, d9, d10, d11⟩ :=
    advance_burn_step (ajustar_pid
        (advanceState r0 (ajustar_pid (cexTrace 199) (some (200 / 1427)) (some 0) (some 0)))
        (some 1) (some 0) (some 0))
      (by rw [ajustar_pid_ok_estado]; exact c1)
      (by rw [ajustar_pid_ok_abortada]; exact c2)
      (ajustar_pid_ok_Ki _ _ _ _)
      (ajustar_pid_ok_Kd _ _ _ _)
      (by rw [ajustar_pid_ok_objetivo]; exact c6)
      (by rw [ajustar_pid_ok_combustible, hcomb5]; norm_num)
      (by rw [ajustar_pid_ok_viento]; exact c7)
  have hP6 : max 0 (min 100
      ((ajustar_pid (advanceState r0
          (ajustar_pid (cexTrace 199) (some (200 / 1427)) (some 0) (some 0)))
          (some 1) (some 0) (some 0)).Kp *
        (ajustar_pid (advanceState r0
          (ajustar_pid (cexTrace 199) (some (200 / 1427)) (some 0) (some 0)))
          (some 1) (some 0) (some 0)).altitud * 10)) = 100 := by
    rw [ajustar_pid_ok_Kp, ajustar_pid_ok_altitud, halt5]
    rw [min_eq_left (by norm_num : (100 : ℝ) ≤ 1 * (3815 / 100) * 10)]
    exact max_eq_right (by norm_num)
  have hfin : (advanceState r0 (ajustar_pid
      (advanceState r0 (ajustar_pid (cexTrace 199) (some (200 / 1427)) (some 0) (some 0)))
      (some 1) (some 0) (some 0))).combustible = -(3 / 10) := by
    rw [d9, hP6, ajustar_pid_ok_combustible, hcomb5]
    norm_num
  refine ⟨?_, hfin, by rw [hfin]; norm_num⟩
  norm_num [RuidoValido, r0]

end ModeloCohete

end
